import Mathlib

/-!
Shallow embedding of the treepoem barcode-rendering pipeline
(`treepoem/__init__.py`): argument hex-encoding with line wrapping,
option rendering, probe-output parsing, ghostscript binary lookup with
memoization, and the `generate_barcode` control flow.  Text is modelled
as `List Char`, bytes as `List Nat` (each `< 256`), and the floating
point numbers read from the bounding-box line as exact rationals (the
decimal literals appearing in bounding-box output are parsed exactly).
-/

namespace Treepoem

/-- Python whitespace characters stripped by `str.strip()` (ASCII subset). -/
def isPyWS (c : Char) : Bool :=
  c == ' ' || c == '\t' || c == '\n' || c == '\r' || c == '\x0b' || c == '\x0c'

/-- Python `str.strip()`: remove leading and trailing whitespace. -/
def pyStrip (s : List Char) : List Char :=
  ((s.dropWhile isPyWS).reverse.dropWhile isPyWS).reverse

/-- Python substring containment, `needle in hay`. -/
def containsSub (needle : List Char) : List Char → Bool
  | [] => needle.isEmpty
  | c :: t => needle.isPrefixOf (c :: t) || containsSub needle t

/-- Python `hay.replace(needle, repl, 1)` for a nonempty needle:
replace the first occurrence only. -/
def pyReplaceFirst (needle repl : List Char) : List Char → List Char
  | [] => []
  | c :: t =>
    if needle.isPrefixOf (c :: t) then repl ++ (c :: t).drop needle.length
    else c :: pyReplaceFirst needle repl t

/-- Python `s.split(sep, maxsplit)` for a single-character separator. -/
def pySplitChar (sep : Char) : Nat → List Char → List (List Char)
  | 0, s => [s]
  | n + 1, s =>
    let pre := s.takeWhile (fun c => c != sep)
    match s.dropWhile (fun c => c != sep) with
    | [] => [pre]
    | _ :: t => pre :: pySplitChar sep n t

/-- Python `s.split(sep)` (unbounded) for a single-character separator. -/
def pySplitAll (sep : Char) (s : List Char) : List (List Char) :=
  pySplitChar sep s.length s

/-- Helper for `splitKeepNL`: accumulate the current (reversed) line. -/
def splitKeepNLAux (cur : List Char) : List Char → List (List Char)
  | [] => if cur.isEmpty then [] else [cur.reverse]
  | c :: t =>
    if c == '\n' then (cur.reverse ++ ['\n']) :: splitKeepNLAux [] t
    else splitKeepNLAux (c :: cur) t

/-- Python `s.splitlines(keepends=True)` for newline-only text. -/
def splitKeepNL (s : List Char) : List (List Char) :=
  splitKeepNLAux [] s

/-- Model of `textwrap.indent(s, p)` with the default predicate: prefix every
line whose stripped form is nonempty. -/
def pyIndent (p s : List Char) : List Char :=
  ((splitKeepNL s).map
    (fun l => if (pyStrip l).isEmpty then l else p ++ l)).flatten

/-- Continuation lines produced by
`TextWrapper(subsequent_indent=" ", width=72)` on a single long word:
every further line is a one-space indent followed by 71 characters. -/
def wrapRest : List Char → List Char
  | [] => []
  | c :: cs =>
    '\n' :: ' ' :: ((c :: cs.take 70) ++ wrapRest (cs.drop 70))
termination_by s => s.length
decreasing_by simp [List.length_drop]; omega

/-- Model of `TextWrapper(subsequent_indent=" ", width=72).fill` on a
single word without whitespace or hyphens: first line of 72 characters, then
one-space-indented lines of 71. -/
def textFill (s : List Char) : List Char :=
  if s.length ≤ 72 then s else s.take 72 ++ wrapRest (s.drop 72)

/-- Lowercase hex digit character, as produced by `binascii.hexlify`. -/
def hexDigitChar (n : Nat) : Char :=
  if n < 10 then Char.ofNat (48 + n) else Char.ofNat (87 + n)

/-- Two lowercase hex digits of one byte. -/
def hexlifyByte (b : Nat) : List Char :=
  [hexDigitChar (b / 16), hexDigitChar (b % 16)]

/-- Model of `binascii.hexlify` on a byte sequence. -/
def hexlify (bs : List Nat) : List Char :=
  bs.foldr (fun b acc => hexlifyByte b ++ acc) []

/-- The unwrapped hex literal `<...>` built by `_hexify`. -/
def hexifyRaw (bs : List Nat) : List Char :=
  '<' :: (hexlify bs ++ ['>'])

/-- Model of `_hexify` on bytes: the `<...>` hex literal, line-wrapped at width 72
with a one-space continuation indent. -/
def hexifyBytes (bs : List Nat) : List Char :=
  textFill (hexifyRaw bs)

/-- UTF-8 encoding of one Unicode scalar value, as `str.encode("utf-8")`. -/
def utf8EncodeChar (c : Char) : List Nat :=
  let n := c.toNat
  if n < 128 then [n]
  else if n < 2048 then [192 + n / 64, 128 + n % 64]
  else if n < 65536 then [224 + n / 4096, 128 + n / 64 % 64, 128 + n % 64]
  else [240 + n / 262144, 128 + n / 4096 % 64, 128 + n / 64 % 64, 128 + n % 64]

/-- UTF-8 encoding of a text string. -/
def utf8Encode (s : List Char) : List Nat :=
  s.foldr (fun c acc => utf8EncodeChar c ++ acc) []

/-- Python `str | bytes` data argument. -/
inductive PyData where
  | str (s : List Char)
  | bytes (bs : List Nat)
deriving DecidableEq

/-- Model of `_hexify`: text is UTF-8 encoded first, then hex-encoded and wrapped. -/
def hexify : PyData → List Char
  | .str s => hexifyBytes (utf8Encode s)
  | .bytes bs => hexifyBytes bs

/-- Value of a hex digit character (both cases), as `binascii.unhexlify`. -/
def hexVal (c : Char) : Option Nat :=
  if 48 ≤ c.toNat ∧ c.toNat ≤ 57 then some (c.toNat - 48)
  else if 97 ≤ c.toNat ∧ c.toNat ≤ 102 then some (c.toNat - 87)
  else if 65 ≤ c.toNat ∧ c.toNat ≤ 70 then some (c.toNat - 55)
  else none

/-- Model of `binascii.unhexlify`: decode pairs of hex digits into bytes. -/
def unhexlify : List Char → Option (List Nat)
  | [] => some []
  | [_] => none
  | c1 :: c2 :: rest =>
    match hexVal c1, hexVal c2, unhexlify rest with
    | some h, some l, some bs => some ((16 * h + l) :: bs)
    | _, _, _ => none

/-- Characters that survive decoding: everything except the literal
delimiters and the wrapping whitespace. -/
def tokKeep (c : Char) : Bool :=
  !(c == '<' || c == '>' || c == ' ' || c == '\n')

/-- Decode an encoded argument: strip the delimiters `<` `>` and all
inserted line-break/indent whitespace, then un-hexlify. -/
def decodeHexToken (s : List Char) : Option (List Nat) :=
  unhexlify (s.filter tokKeep)

/-- Python `str | bool` option value. -/
inductive OptValue where
  | bool (b : Bool)
  | str (s : List Char)
deriving DecidableEq

/-- The `items` list built by the loop in `_format_options`: `True`
flags as bare names, `False` flags skipped, strings as `name=value`. -/
def optionItems : List (List Char × OptValue) → List (List Char)
  | [] => []
  | (name, .bool b) :: rest =>
    if b then name :: optionItems rest else optionItems rest
  | (name, .str v) :: rest =>
    (name ++ ('=' :: v)) :: optionItems rest

/-- Model of `_format_options`: space-join the rendered items. -/
def formatOptions (options : List (List Char × OptValue)) : List Char :=
  List.intercalate [' '] (optionItems options)

/-- Model of `_format_data_options_encoder`: the three hex tokens for data,
options and barcode type, newline-separated, with a trailing ` cvn`. -/
def formatDataOptionsEncoder (data : PyData)
    (options : List (List Char × OptValue)) (barcodeType : List Char) :
    List Char :=
  hexify data ++ ('\n' :: hexify (.str (formatOptions options)))
    ++ ('\n' :: hexify (.str barcodeType)) ++ " cvn".toList

/-- The marker substring tested with `in`. -/
def markerColon : List Char := "BWIPP ERROR:".toList

/-- The marker prefix tested with `startswith` and stripped. -/
def markerSpaced : List Char := "BWIPP ERROR: ".toList

/-- The bounding-box line prefix. -/
def hiResTag : List Char := "%%HiResBoundingBox: ".toList

/-- Decimal value of a digit string. -/
def digitsVal (ds : List Char) : Nat :=
  ds.foldl (fun a c => 10 * a + (c.toNat - 48)) 0

/-- Python `float()` on plain decimal literals (optional sign, integer
and fractional digits, optional exponent), with exact rational value;
the value is assembled with `mkRat` from integer arithmetic. -/
def parsePyFloat (s : List Char) : Option ℚ :=
  let sgnRest : Int × List Char :=
    match s with
    | '-' :: t => (-1, t)
    | '+' :: t => (1, t)
    | _ => (1, s)
  let s1 := sgnRest.2
  let intPart := s1.takeWhile Char.isDigit
  let rest1 := s1.dropWhile Char.isDigit
  let fracRest : List Char × List Char :=
    match rest1 with
    | '.' :: t => (t.takeWhile Char.isDigit, t.dropWhile Char.isDigit)
    | _ => ([], rest1)
  let fracPart := fracRest.1
  let rest2 := fracRest.2
  if intPart.isEmpty && fracPart.isEmpty then none
  else
    let expRes : Bool × Int × List Char :=
      match rest2 with
      | 'e' :: t | 'E' :: t =>
        let esgnRest : Int × List Char :=
          match t with
          | '-' :: u => (-1, u)
          | '+' :: u => (1, u)
          | _ => (1, t)
        let eds := esgnRest.2.takeWhile Char.isDigit
        (!eds.isEmpty, esgnRest.1 * (digitsVal eds : Int),
          esgnRest.2.dropWhile Char.isDigit)
      | _ => (true, 0, rest2)
    if expRes.1 && expRes.2.2.isEmpty then
      let e := expRes.2.1
      let numBase : Int :=
        sgnRest.1 * ((digitsVal intPart : Int) * (10 : Int) ^ fracPart.length
          + (digitsVal fracPart : Int))
      if 0 ≤ e then
        some (mkRat (numBase * (10 : Int) ^ e.toNat)
          ((10 : Nat) ^ fracPart.length))
      else
        some (mkRat numBase
          ((10 : Nat) ^ fracPart.length * (10 : Nat) ^ (-e).toNat))
    else none

/-- Outcome of running the probe subprocess and parsing its stderr. -/
inductive ProbeOutcome where
  | calledProcessError (rc : Int)
  | treepoemError (msg : List Char)
  | indexError
  | assertionError
  | valueError
  | ok (x1 y1 x2 y2 : ℚ)
deriving DecidableEq

/-- The parsing code after the probe run (`__init__.py` lines 177-191):
strip stderr, check the error marker (also when the exit code is 0),
strip the leading marker prefix, else read the second line of the
stripped output, require the `%%HiResBoundingBox: ` prefix and four
space-separated numbers. -/
def parseProbeOutput (returncode : Int) (stderr : List Char) :
    ProbeOutcome :=
  let errOutput := pyStrip stderr
  if returncode ≠ 0 ∨ containsSub markerColon errOutput = true then
    let errOutput1 :=
      if markerSpaced.isPrefixOf errOutput then
        pyReplaceFirst markerSpaced [] errOutput
      else errOutput
    .treepoemError errOutput1
  else
    match (pySplitChar '\n' 2 errOutput).get? 1 with
    | none => .indexError
    | some line =>
      if hiResTag.isPrefixOf line then
        match pySplitAll ' ' (line.drop hiResTag.length) with
        | [n1, n2, n3, n4] =>
          match parsePyFloat n1, parsePyFloat n2,
              parsePyFloat n3, parsePyFloat n4 with
          | some a, some b, some c, some d => .ok a b c d
          | _, _, _, _ => .valueError
        | _ => .assertionError
      else .assertionError

/-- The probe subprocess step: `subprocess.run(..., check=True)` raises
`CalledProcessError` on a non-zero exit code before any stderr parsing;
otherwise the stderr parsing code runs. -/
def runProbe (rc : Int) (stderr : List Char) : ProbeOutcome :=
  if rc ≠ 0 then .calledProcessError rc else parseProbeOutput rc stderr

/-- Candidate ghostscript binary names per platform. -/
def gsCandidates (isWin : Bool) : List (List Char) :=
  if isWin then ["gswin32c".toList, "gswin64c".toList, "gs".toList]
  else ["gs".toList]

/-- Probe candidate names in order with `shutil.which`, counting probes. -/
def findBinary (which : List Char → Bool) :
    List (List Char) → Option (List Char) × Nat
  | [] => (none, 0)
  | name :: rest =>
    if which name then (some name, 1)
    else
      let r := findBinary which rest
      (r.1, r.2 + 1)

/-- Return or raise of one `_ghostscript_binary` call. -/
inductive GsOutcome where
  | ok (v : List Char)
  | error (msg : List Char)
deriving DecidableEq

/-- Result of one call to the memoized `_ghostscript_binary`. -/
structure GsResult where
  cache : Option (List Char)
  result : GsOutcome
  probes : Nat
deriving DecidableEq

/-- One call to `_ghostscript_binary` under `functools.lru_cache`: a
cached value is returned without probing; on a miss the candidates are
searched and a successful result is stored, while the raised
`TreepoemError` is not stored (`lru_cache` does not memoize exceptions). -/
def ghostscriptBinaryCall (isWin : Bool) (which : List Char → Bool)
    (cache : Option (List Char)) : GsResult :=
  match cache with
  | some v => ⟨some v, .ok v, 0⟩
  | none =>
    match findBinary which (gsCandidates isWin) with
    | (some name, n) => ⟨some name, .ok name, n⟩
    | (none, n) =>
      ⟨none,
        .error "Cannot determine path to ghostscript, is it installed?".toList,
        n⟩

/-- Modelled from the spec: the fixed supported set `barcode_types`
comes from the `treepoem.data` module, which is not among the sources;
the spec names `qrcode` (the CLI default) and `code128` (its example)
as members.  The claims about it quantify over membership, so only the
membership test matters, not the exact contents. -/
def barcode_types : List (List Char) :=
  ["qrcode".toList, "code128".toList]

/-- Text of `BBOX_TEMPLATE` before the `{bwipp}` slot. -/
def bboxPre : List Char := "%!PS\n\n".toList

/-- Text of `BBOX_TEMPLATE` between the `{bwipp}` slot and the
`{data_options_encoder}` slot (the slot line carries a two-space
template indent). -/
def bboxMid : List Char :=
  "\n/Helvetica findfont 10 scalefont setfont\n\x7b\n  0 0 moveto\n  ".toList

/-- Text of `BBOX_TEMPLATE` after the `{data_options_encoder}` slot. -/
def bboxPost : List Char :=
  ("\n  /uk.co.terryburton.bwipp findresource exec\n  showpage\n\x7d stopped \x7b  % \"catch\" all exceptions\n  $error /errorname get dup length string cvs 0 6 getinterval (bwipp.) ne \x7b\n    stop  % Rethrow non-BWIPP exceptions\n  \x7d if\n  % Handle BWIPP exceptions, e.g. emit formatted error to stderr\n  (%stderr) (w) file\n  dup (\nBWIPP ERROR: ) writestring\n  dup $error /errorname get dup length string cvs writestring\n  dup ( ) writestring\n  dup $error /errorinfo get dup length string cvs writestring\n  dup (\n) writestring\n  dup flushfile\n\x7d if\n").toList

/-- Result of `BBOX_TEMPLATE.format(bwipp=..., data_options_encoder=...)`. -/
def bboxCode (bwipp doeIndented : List Char) : List Char :=
  bboxPre ++ bwipp ++ bboxMid ++ doeIndented ++ bboxPost

/-- The page offset constant configured for the probe pass. -/
def pageOffset : Int := 3000

/-- A recorded rasterizer subprocess invocation. -/
structure Invocation where
  device : List Char
  pageOffsetSetting : Option Int
  input : List Char
deriving DecidableEq

/-- The values substituted into `EPS_TEMPLATE` for the final document. -/
structure FinalDoc where
  ceilwidth : Int
  ceilheight : Int
  width : ℚ
  height : ℚ
  bwipp : List Char
  translateX : ℚ
  translateY : ℚ
  dataOptionsEncoder : List Char
deriving DecidableEq

/-- Outcome of `generate_barcode`. -/
inductive RenderOutcome where
  | notImplementedError (msg : List Char)
  | valueError (msg : List Char)
  | calledProcessError (rc : Int)
  | treepoemError (msg : List Char)
  | protocolError
  | ok (f : FinalDoc)
deriving DecidableEq

/-- Trace of one `generate_barcode` call: its outcome, the number of
subprocess invocations performed, and the probe invocation if spawned. -/
structure RenderTrace where
  outcome : RenderOutcome
  subprocessCalls : Nat
  probe : Option Invocation
deriving DecidableEq

/-- Model of `generate_barcode`, with the probe subprocess's exit code and stderr
supplied as oracle inputs: reject unsupported types, default the
options, reject `scale < 1`, build the probe document, run and parse
the probe, then compute the final document's placement values. -/
def generateBarcode (bwipp : List Char) (barcodeType : List Char)
    (data : PyData) (options : Option (List (List Char × OptValue)))
    (scale : Int) (probeRc : Int) (probeStderr : List Char) :
    RenderTrace :=
  if barcode_types.contains barcodeType = false then
    ⟨.notImplementedError
      ("unsupported barcode type '".toList ++ barcodeType ++ ['\x27']),
      0, none⟩
  else
    let options := options.getD []
    if scale < 1 then
      ⟨.valueError "scale must be at least 1".toList, 0, none⟩
    else
      let doe := formatDataOptionsEncoder data options barcodeType
      let probeInv : Invocation :=
        ⟨"bbox".toList, some pageOffset,
          bboxCode bwipp (pyIndent "  ".toList doe)⟩
      match runProbe probeRc probeStderr with
      | .calledProcessError rc =>
        ⟨.calledProcessError rc, 1, some probeInv⟩
      | .treepoemError m => ⟨.treepoemError m, 1, some probeInv⟩
      | .indexError => ⟨.protocolError, 1, some probeInv⟩
      | .assertionError => ⟨.protocolError, 1, some probeInv⟩
      | .valueError => ⟨.protocolError, 1, some probeInv⟩
      | .ok x1 y1 x2 y2 =>
        let width := x2 - x1
        let height := y2 - y1
        let f : FinalDoc :=
          ⟨⌈width⌉, ⌈height⌉, width, height, bwipp,
            (pageOffset : ℚ) - x1, (pageOffset : ℚ) - y1, doe⟩
        ⟨.ok f, 2, some probeInv⟩

/-! ## Wrapping and filtering lemmas -/

theorem filter_wrapRest (p : Char → Bool) (hn : p '\n' = false)
    (hs : p ' ' = false) :
    ∀ s : List Char, (wrapRest s).filter p = s.filter p
  | [] => by simp [wrapRest]
  | c :: cs => by
    rw [wrapRest]
    rw [List.filter_cons_of_neg (by simp [hn]),
      List.filter_cons_of_neg (by simp [hs])]
    rw [List.filter_append, filter_wrapRest p hn hs (cs.drop 70),
      ← List.filter_append]
    rw [List.cons_append, List.take_append_drop]
termination_by s => s.length
decreasing_by simp [List.length_drop]; omega

theorem filter_textFill (p : Char → Bool) (hn : p '\n' = false)
    (hs : p ' ' = false) (s : List Char) :
    (textFill s).filter p = s.filter p := by
  unfold textFill
  split
  · rfl
  · rw [List.filter_append, filter_wrapRest p hn hs, ← List.filter_append,
      List.take_append_drop]

theorem hexVal_hexDigitChar {n : Nat} (h : n < 16) :
    hexVal (hexDigitChar n) = some n := by
  interval_cases n <;> decide

theorem tokKeep_hexDigitChar {n : Nat} (h : n < 16) :
    tokKeep (hexDigitChar n) = true := by
  interval_cases n <;> decide

theorem mem_hexlify {bs : List Nat} (hb : ∀ b ∈ bs, b < 256) :
    ∀ c ∈ hexlify bs, tokKeep c = true := by
  induction bs with
  | nil => simp [hexlify]
  | cons b rest ih =>
    intro c hc
    have hblt : b < 256 := hb b (by simp)
    have hrest : ∀ x ∈ rest, x < 256 := fun x hx => hb x (by simp [hx])
    simp only [hexlify, List.foldr_cons] at hc
    rw [List.mem_append] at hc
    rcases hc with hc | hc
    · simp only [hexlifyByte, List.mem_cons, List.mem_singleton] at hc
      rcases hc with rfl | hc
      · exact tokKeep_hexDigitChar (by omega)
      · rcases hc with rfl | hc
        · exact tokKeep_hexDigitChar (by omega)
        · simp at hc
    · exact ih hrest c hc

theorem filter_hexifyRaw {bs : List Nat} (hb : ∀ b ∈ bs, b < 256) :
    (hexifyRaw bs).filter tokKeep = hexlify bs := by
  unfold hexifyRaw
  rw [List.filter_cons_of_neg (by decide), List.filter_append]
  rw [List.filter_eq_self.mpr (mem_hexlify hb)]
  simp [show tokKeep '>' = false from by decide]

theorem unhexlify_hexlify {bs : List Nat} (hb : ∀ b ∈ bs, b < 256) :
    unhexlify (hexlify bs) = some bs := by
  induction bs with
  | nil => rfl
  | cons b rest ih =>
    have hblt : b < 256 := hb b (by simp)
    have hrest : ∀ x ∈ rest, x < 256 := fun x hx => hb x (by simp [hx])
    show unhexlify
      (hexDigitChar (b / 16) :: hexDigitChar (b % 16) :: hexlify rest) =
        some (b :: rest)
    rw [unhexlify]
    rw [hexVal_hexDigitChar (by omega), hexVal_hexDigitChar (by omega),
      ih hrest]
    show some ((16 * (b / 16) + b % 16) :: rest) = some (b :: rest)
    have hdm : 16 * (b / 16) + b % 16 = b := by omega
    rw [hdm]

/-- C1: decoding the output of the argument encoder `_hexify` — stripping
the delimiters `<` `>` and all inserted line-break/indent whitespace,
then un-hexlifying — recovers exactly the original byte sequence, for
every byte sequence (including the empty one and ones containing bytes
such as `>` or `)`); the wrapping at width 72 with a one-space
continuation indent never alters the decoded bytes. -/
theorem hexify_roundtrip (bs : List Nat) (hb : ∀ b ∈ bs, b < 256) :
    decodeHexToken (hexify (.bytes bs)) = some bs := by
  show decodeHexToken (hexifyBytes bs) = some bs
  unfold decodeHexToken hexifyBytes
  rw [filter_textFill tokKeep (by decide) (by decide)]
  rw [filter_hexifyRaw hb]
  exact unhexlify_hexlify hb

/-- Witness for C1 at a concrete byte sequence containing `>` (62) and
`)` (41), and long enough (40 bytes) that the encoded form is wrapped. -/
theorem hexify_roundtrip_wit :
    (∀ b ∈ ([62, 41, 0] ++ List.replicate 37 255 : List Nat), b < 256) ∧
      decodeHexToken
          (hexify (.bytes ([62, 41, 0] ++ List.replicate 37 255))) =
        some ([62, 41, 0] ++ List.replicate 37 255) :=
  ⟨by decide, hexify_roundtrip ([62, 41, 0] ++ List.replicate 37 255)
    (by decide)⟩

/-! ## Option rendering and data-type equivalence -/

/-- Rendering of options as the spec words it: boolean `true` entries
as bare names, boolean `false` entries omitted, string entries as
`name=value`, joined by single spaces in insertion order. -/
def specRenderOptions (opts : List (List Char × OptValue)) : List Char :=
  List.intercalate [' ']
    (opts.filterMap fun p =>
      match p.2 with
      | .bool true => some p.1
      | .bool false => none
      | .str v => some (p.1 ++ ('=' :: v)))

/-- C7: option rendering is deterministic and order-preserving, equal to
the spec-side rendering for every ordered option mapping; in particular
`includetext=True, height="1.5", quietzone=False` renders to exactly
`includetext height=1.5`. -/
theorem option_render_spec :
    (∀ opts, formatOptions opts = specRenderOptions opts) ∧
      formatOptions
          [("includetext".toList, .bool true),
            ("height".toList, .str "1.5".toList),
            ("quietzone".toList, .bool false)] =
        "includetext height=1.5".toList := by
  constructor
  · intro opts
    unfold formatOptions specRenderOptions
    congr 1
    induction opts with
    | nil => rfl
    | cons p rest ih =>
      obtain ⟨name, v⟩ := p
      cases v with
      | bool b => cases b <;> simp [optionItems, ih]
      | str s => simp [optionItems, ih]
  · decide

/-- C10: calling the pipeline with text data behaves identically to
calling it with that text's UTF-8 byte encoding: the encoded-argument
block and the whole `generate_barcode` result coincide. -/
theorem str_bytes_equiv (s bwipp barcodeType : List Char)
    (opts : List (List Char × OptValue))
    (options : Option (List (List Char × OptValue)))
    (scale rc : Int) (stderr : List Char) :
    formatDataOptionsEncoder (.str s) opts barcodeType =
        formatDataOptionsEncoder (.bytes (utf8Encode s)) opts barcodeType ∧
      generateBarcode bwipp barcodeType (.str s) options scale rc stderr =
        generateBarcode bwipp barcodeType (.bytes (utf8Encode s)) options
          scale rc stderr :=
  ⟨rfl, rfl⟩

/-! ## Early rejection -/

/-- C4: for every symbology string not in the supported set, the call
fails with the unsupported-symbology error and performs zero subprocess
invocations, for every data, options and scale. -/
theorem unsupported_symbology_rejected (bwipp barcodeType : List Char)
    (data : PyData) (options : Option (List (List Char × OptValue)))
    (scale rc : Int) (stderr : List Char)
    (h : barcode_types.contains barcodeType = false) :
    generateBarcode bwipp barcodeType data options scale rc stderr =
      ⟨.notImplementedError
          ("unsupported barcode type '".toList ++ barcodeType ++ ['\x27']),
        0, none⟩ := by
  unfold generateBarcode
  rw [if_pos h]

/-- Witness for C4 at the unsupported type `nope`. -/
theorem unsupported_symbology_rejected_wit :
    barcode_types.contains "nope".toList = false ∧
      generateBarcode "BWIPP".toList "nope".toList (.str "x".toList) none
          2 0 [] =
        ⟨.notImplementedError
            ("unsupported barcode type '".toList ++ "nope".toList
              ++ ['\x27']),
          0, none⟩ :=
  ⟨by decide,
    unsupported_symbology_rejected "BWIPP".toList "nope".toList
      (.str "x".toList) none 2 0 [] (by decide)⟩

/-- C5: for every supported symbology, data and options, a scale of 0
or below fails with the invalid-argument error (`scale must be at least
1`) before any subprocess invocation. -/
theorem invalid_scale_rejected (bwipp barcodeType : List Char)
    (data : PyData) (options : Option (List (List Char × OptValue)))
    (scale rc : Int) (stderr : List Char)
    (hbt : barcode_types.contains barcodeType = true)
    (hs : scale < 1) :
    generateBarcode bwipp barcodeType data options scale rc stderr =
      ⟨.valueError "scale must be at least 1".toList, 0, none⟩ := by
  unfold generateBarcode
  rw [if_neg (by rw [hbt]; decide)]
  simp only [if_pos hs]

/-- Witness for C5 at the supported type `code128` with scale 0. -/
theorem invalid_scale_rejected_wit :
    barcode_types.contains "code128".toList = true ∧ (0 : Int) < 1 ∧
      generateBarcode "BWIPP".toList "code128".toList (.str "x".toList)
          none 0 0 [] =
        ⟨.valueError "scale must be at least 1".toList, 0, none⟩ :=
  ⟨by decide, by decide,
    invalid_scale_rejected "BWIPP".toList "code128".toList
      (.str "x".toList) none 0 0 [] (by decide) (by decide)⟩

/-! ## Probe error-marker handling -/

theorem pyReplaceFirst_drop (needle l : List Char) (hne : needle ≠ [])
    (h : needle.isPrefixOf l = true) :
    pyReplaceFirst needle [] l = l.drop needle.length := by
  cases l with
  | nil =>
    cases needle with
    | nil => exact absurd rfl hne
    | cons a t => simp [List.isPrefixOf] at h
  | cons c t =>
    unfold pyReplaceFirst
    rw [if_pos h]
    simp

/-- C2 counterexample: with a non-zero exit code, `check=True` raises
`CalledProcessError` before the marker check, so even a stderr that is
exactly an error-marker line does not produce the symbology-engine
error; "regardless of exit code" fails. -/
theorem probe_marker_check_cex :
    containsSub markerColon
        (pyStrip "BWIPP ERROR: badOption Unknown option".toList) = true ∧
      runProbe 1 "BWIPP ERROR: badOption Unknown option".toList =
        .calledProcessError 1 ∧
      ∀ m, runProbe 1 "BWIPP ERROR: badOption Unknown option".toList ≠
        ProbeOutcome.treepoemError m := by
  refine ⟨by decide, by decide, ?_⟩
  intro m hm
  rw [show runProbe 1 "BWIPP ERROR: badOption Unknown option".toList =
      ProbeOutcome.calledProcessError 1 from by decide] at hm
  exact ProbeOutcome.noConfusion hm

/-- C2 (amended): when the probe exits 0, the error-marker check on the
diagnostic output is performed: every stderr whose stripped form
contains `BWIPP ERROR:` makes the call fail with the engine error,
whose message is the stripped stderr with a leading `BWIPP ERROR: `
prefix removed when present. -/
theorem probe_marker_check (stderr : List Char)
    (h : containsSub markerColon (pyStrip stderr) = true) :
    runProbe 0 stderr =
      .treepoemError
        (if markerSpaced.isPrefixOf (pyStrip stderr) then
          (pyStrip stderr).drop markerSpaced.length
        else pyStrip stderr) := by
  unfold runProbe
  rw [if_neg (by omega)]
  unfold parseProbeOutput
  simp only []
  rw [if_pos (Or.inr h)]
  congr 1
  split
  · next hpre => exact pyReplaceFirst_drop markerSpaced _ (by decide) hpre
  · rfl

/-- Witness for C2 (amended) at the stderr the error trap writes for a
bad option: the message is the text after the marker. -/
theorem probe_marker_check_wit :
    containsSub markerColon
        (pyStrip "\nBWIPP ERROR: badOption Unknown option\n".toList) =
        true ∧
      runProbe 0 "\nBWIPP ERROR: badOption Unknown option\n".toList =
        .treepoemError "badOption Unknown option".toList :=
  ⟨by decide,
    (probe_marker_check "\nBWIPP ERROR: badOption Unknown option\n".toList
      (by decide)).trans (by decide)⟩

/-! ## Bounding-box parsing -/

theorem isPrefixOf_append_self (a b : List Char) :
    a.isPrefixOf (a ++ b) = true := by
  induction a with
  | nil => simp [List.isPrefixOf]
  | cons c t ih => simp [List.isPrefixOf, ih]

/-- C3 counterexample: a diagnostic output whose first line is blank
and whose second line is the bounding-box line is not parsed to the
box: stripping removes the blank line first, and the parse then fails
on the missing second line. -/
theorem bbox_second_line_cex :
    containsSub markerColon
        "\n%%HiResBoundingBox: 10.0 20.0 110.0 70.0".toList = false ∧
      (pySplitChar '\n' 2
            "\n%%HiResBoundingBox: 10.0 20.0 110.0 70.0".toList).get? 1 =
        some "%%HiResBoundingBox: 10.0 20.0 110.0 70.0".toList ∧
      runProbe 0 "\n%%HiResBoundingBox: 10.0 20.0 110.0 70.0".toList =
        .indexError ∧
      ∀ a b c d : ℚ,
        runProbe 0 "\n%%HiResBoundingBox: 10.0 20.0 110.0 70.0".toList ≠
          ProbeOutcome.ok a b c d := by
  refine ⟨by decide, by decide, by decide, ?_⟩
  intro a b c d hm
  rw [show runProbe 0 "\n%%HiResBoundingBox: 10.0 20.0 110.0 70.0".toList =
      ProbeOutcome.indexError from by decide] at hm
  exact ProbeOutcome.noConfusion hm

/-- C3 (amended): for every probe diagnostic output without an error
marker, the bounding box is parsed from the second line of the
whitespace-stripped diagnostic output: that line must begin with
`%%HiResBoundingBox: ` and the four space-separated numbers after the
marker are read in order as x1 y1 x2 y2. -/
theorem bbox_second_line (stderr rest t1 t2 t3 t4 : List Char)
    (q1 q2 q3 q4 : ℚ)
    (hm : containsSub markerColon (pyStrip stderr) = false)
    (hl : (pySplitChar '\n' 2 (pyStrip stderr)).get? 1 =
      some (hiResTag ++ rest))
    (ht : pySplitAll ' ' rest = [t1, t2, t3, t4])
    (h1 : parsePyFloat t1 = some q1) (h2 : parsePyFloat t2 = some q2)
    (h3 : parsePyFloat t3 = some q3) (h4 : parsePyFloat t4 = some q4) :
    runProbe 0 stderr = .ok q1 q2 q3 q4 := by
  unfold runProbe
  rw [if_neg (by omega)]
  unfold parseProbeOutput
  simp only []
  rw [if_neg (by simp [hm])]
  rw [hl]
  simp only []
  rw [if_pos (isPrefixOf_append_self hiResTag rest)]
  rw [show (hiResTag ++ rest).drop hiResTag.length = rest from
    List.drop_left hiResTag rest]
  rw [ht]
  dsimp only []
  rw [h1, h2, h3, h4]

/-- Witness for C3 (amended) at a two-line probe output whose stripped
second line carries the box 10.0 20.0 110.0 70.0. -/
theorem bbox_second_line_wit :
    runProbe 0
        ("%%BoundingBox: 10 20 110 70\n"
          ++ "%%HiResBoundingBox: 10.0 20.0 110.0 70.0\n").toList =
      .ok 10 20 110 70 :=
  bbox_second_line
    ("%%BoundingBox: 10 20 110 70\n"
      ++ "%%HiResBoundingBox: 10.0 20.0 110.0 70.0\n").toList
    "10.0 20.0 110.0 70.0".toList
    "10.0".toList "20.0".toList "110.0".toList "70.0".toList
    10 20 110 70
    (by decide) (by decide) (by decide)
    (by decide) (by decide) (by decide) (by decide)

/-! ## Final document placement -/

/-- C6: for every measured bounding box (x1, y1, x2, y2), the final
document places the drawing origin at `(3000 - x1, 3000 - y1)` — the
fixed page offset set during the probe pass — and its header's integer
page bounds are the ceilings of the measured width `x2 - x1` and height
`y2 - y1`, while the high-resolution bounding box equals the exact
measured width and height. -/
theorem final_doc_placement (bwipp barcodeType : List Char)
    (data : PyData) (options : Option (List (List Char × OptValue)))
    (scale rc : Int) (stderr : List Char) (x1 y1 x2 y2 : ℚ)
    (hbt : barcode_types.contains barcodeType = true)
    (hs : 1 ≤ scale)
    (hr : runProbe rc stderr = .ok x1 y1 x2 y2) :
    generateBarcode bwipp barcodeType data options scale rc stderr =
      ⟨.ok ⟨⌈x2 - x1⌉, ⌈y2 - y1⌉, x2 - x1, y2 - y1, bwipp,
          (3000 : ℚ) - x1, (3000 : ℚ) - y1,
          formatDataOptionsEncoder data (options.getD []) barcodeType⟩,
        2,
        some ⟨"bbox".toList, some 3000,
          bboxCode bwipp (pyIndent "  ".toList
            (formatDataOptionsEncoder data (options.getD []) barcodeType))⟩⟩
    := by
  unfold generateBarcode
  rw [if_neg (by rw [hbt]; decide)]
  rw [if_neg (by omega)]
  simp only []
  rw [hr]
  have hcast : ((pageOffset : Int) : ℚ) = (3000 : ℚ) := by
    norm_num [pageOffset]
  simp only [hcast]
  rfl

/-- Witness for C6 at the measured box (10, 20, 110, 70): translation
(2990, 2980), width 100, height 50. -/
theorem final_doc_placement_wit :
    (generateBarcode "BWIPP".toList "code128".toList
          (.str "HELLO123".toList) (some []) 2 0
          ("%%BoundingBox: 10 20 110 70\n"
            ++ "%%HiResBoundingBox: 10.0 20.0 110.0 70.0\n").toList).outcome
        =
      .ok ⟨⌈(110 : ℚ) - 10⌉, ⌈(70 : ℚ) - 20⌉, (110 : ℚ) - 10,
        (70 : ℚ) - 20, "BWIPP".toList, (3000 : ℚ) - 10, (3000 : ℚ) - 20,
        formatDataOptionsEncoder (.str "HELLO123".toList) []
          "code128".toList⟩ :=
  congrArg RenderTrace.outcome
    (final_doc_placement "BWIPP".toList "code128".toList
      (.str "HELLO123".toList) (some []) 2 0
      ("%%BoundingBox: 10 20 110 70\n"
        ++ "%%HiResBoundingBox: 10.0 20.0 110.0 70.0\n").toList
      10 20 110 70 (by decide) (by decide) (by decide))

/-! ## Ghostscript binary lookup and memoization -/

theorem findBinary_probes_pos (which : List Char → Bool)
    (c : List Char) (t : List (List Char)) :
    0 < (findBinary which (c :: t)).2 := by
  unfold findBinary
  split <;> simp

/-- C8 counterexample: when no candidate is found, the raised error is
not cached by `lru_cache`, so a later call probes the search path again
(one probe on the one-candidate non-Windows path, not zero): the
unavailability outcome is not cached for the process lifetime. -/
theorem gs_cache_cex :
    (ghostscriptBinaryCall false (fun _ => false) none).result =
        .error
          "Cannot determine path to ghostscript, is it installed?".toList ∧
      (ghostscriptBinaryCall false (fun _ => false) none).cache = none ∧
      (ghostscriptBinaryCall false (fun _ => false)
          ((ghostscriptBinaryCall false (fun _ => false) none).cache)).probes
        = 1 := by
  decide

/-- C8 (amended): the lookup probes the platform-specific candidate
names and caches a successful result for the process lifetime (a cached
call does no probing); when no candidate is found it fails with the
renderer-unavailable error, but this failure is not cached — the search
runs again, with at least one probe, on a later call. -/
theorem gs_cache (isWin : Bool) (which : List Char → Bool)
    (e : List Char)
    (h : (ghostscriptBinaryCall isWin which none).result = .error e) :
    e = "Cannot determine path to ghostscript, is it installed?".toList ∧
      (∀ v, ghostscriptBinaryCall isWin which (some v) =
        ⟨some v, .ok v, 0⟩) ∧
      (ghostscriptBinaryCall isWin which none).cache = none ∧
      0 < (ghostscriptBinaryCall isWin which
          ((ghostscriptBinaryCall isWin which none).cache)).probes := by
  have hcall :
      ghostscriptBinaryCall isWin which none =
        match findBinary which (gsCandidates isWin) with
        | (some name, n) => ⟨some name, .ok name, n⟩
        | (none, n) =>
          ⟨none,
            .error
              "Cannot determine path to ghostscript, is it installed?".toList,
            n⟩ := rfl
  rcases hf : findBinary which (gsCandidates isWin) with ⟨o, n⟩
  cases o with
  | some name =>
    rw [hcall, hf] at h
    exact GsOutcome.noConfusion h
  | none =>
    rw [hcall, hf] at h ⊢
    refine ⟨(GsOutcome.error.inj h).symm, fun v => rfl, rfl, ?_⟩
    show 0 < (ghostscriptBinaryCall isWin which none).probes
    rw [hcall, hf]
    show 0 < n
    have hpos : 0 < (findBinary which (gsCandidates isWin)).2 := by
      cases isWin <;>
        simpa [gsCandidates] using
          findBinary_probes_pos which _ _
    rw [hf] at hpos
    exact hpos

/-- Witness for C8 (amended) on the non-Windows path with no binary
present. -/
theorem gs_cache_wit :
    (ghostscriptBinaryCall false (fun _ => false) none).cache = none ∧
      0 < (ghostscriptBinaryCall false (fun _ => false)
          ((ghostscriptBinaryCall false (fun _ => false) none).cache)).probes
    :=
  ⟨(gs_cache false (fun _ => false)
      "Cannot determine path to ghostscript, is it installed?".toList
      (by decide)).2.2.1,
    (gs_cache false (fun _ => false)
      "Cannot determine path to ghostscript, is it installed?".toList
      (by decide)).2.2.2⟩

/-! ## Document assembly -/

theorem flatten_splitKeepNLAux (s : List Char) :
    ∀ cur, (splitKeepNLAux cur s).flatten = cur.reverse ++ s := by
  induction s with
  | nil =>
    intro cur
    by_cases h : cur.isEmpty
    · have hc : cur = [] := List.isEmpty_iff.mp h
      simp [splitKeepNLAux, h, hc]
    · simp [splitKeepNLAux, h]
  | cons c t ih =>
    intro cur
    by_cases hc : c == '\n'
    · have hceq : c = '\n' := beq_iff_eq.mp hc
      subst hceq
      simp [splitKeepNLAux, ih]
    · simp [splitKeepNLAux, hc, ih]

theorem flatten_splitKeepNL (s : List Char) :
    (splitKeepNL s).flatten = s := by
  simpa using flatten_splitKeepNLAux s []

theorem filter_pyIndent (q : Char → Bool) (p s : List Char)
    (hp : ∀ c ∈ p, q c = false) :
    (pyIndent p s).filter q = s.filter q := by
  unfold pyIndent
  rw [List.filter_flatten, List.map_map]
  have hmap :
      (splitKeepNL s).map
          (List.filter q ∘ fun l =>
            if (pyStrip l).isEmpty then l else p ++ l) =
        (splitKeepNL s).map (List.filter q) := by
    apply List.map_congr_left
    intro l hl
    simp only [Function.comp]
    split
    · rfl
    · rw [List.filter_append,
        List.filter_eq_nil_iff.mpr (fun c hc => by simp [hp c hc]),
        List.nil_append]
  rw [hmap, ← List.filter_flatten, flatten_splitKeepNL]

/-- Characters of the encoded-argument block that are not wrapping or
indent whitespace. -/
def contentKeep (c : Char) : Bool :=
  !(c == ' ' || c == '\n')

set_option maxRecDepth 100000 in
/-- C9 counterexample: for a concrete request the final document embeds
the encoded-argument block verbatim, but the probe document does not
contain that block character for character at all — `textwrap.indent`
prefixed every line of it with two spaces. -/
theorem docs_share_block_cex :
    (∃ f,
        (generateBarcode "BWIPP".toList "code128".toList
              (.str "HELLO123".toList) (some []) 2 0
              ("%%BoundingBox: 10 20 110 70\n"
                ++ "%%HiResBoundingBox: 10.0 20.0 110.0 70.0\n").toList).outcome
            = .ok f ∧
          f.dataOptionsEncoder =
            "<48454c4c4f313233>\n<>\n<636f6465313238> cvn".toList) ∧
      (generateBarcode "BWIPP".toList "code128".toList
            (.str "HELLO123".toList) (some []) 2 0
            ("%%BoundingBox: 10 20 110 70\n"
              ++ "%%HiResBoundingBox: 10.0 20.0 110.0 70.0\n").toList).probe
          =
        some ⟨"bbox".toList, some 3000,
          bboxCode "BWIPP".toList
            (pyIndent "  ".toList
              "<48454c4c4f313233>\n<>\n<636f6465313238> cvn".toList)⟩ ∧
      containsSub "<48454c4c4f313233>\n<>\n<636f6465313238> cvn".toList
          (bboxCode "BWIPP".toList
            (pyIndent "  ".toList
              "<48454c4c4f313233>\n<>\n<636f6465313238> cvn".toList)) =
        false :=
  ⟨⟨_, rfl, by decide⟩, by decide, by decide⟩

/-- C9 (amended): both documents are built from the same symbology
asset text and the same encoded-argument value; the final document
embeds the block verbatim while the probe document embeds it with each
line prefixed by two spaces, and discarding the inserted indent and
line-break whitespace makes the two embedded blocks agree exactly. -/
theorem docs_share_block (bwipp barcodeType : List Char) (data : PyData)
    (options : Option (List (List Char × OptValue)))
    (scale rc : Int) (stderr : List Char) (x1 y1 x2 y2 : ℚ)
    (hbt : barcode_types.contains barcodeType = true)
    (hs : 1 ≤ scale)
    (hr : runProbe rc stderr = .ok x1 y1 x2 y2) :
    ∃ f inv,
      (generateBarcode bwipp barcodeType data options scale rc
          stderr).outcome = .ok f ∧
      (generateBarcode bwipp barcodeType data options scale rc
          stderr).probe = some inv ∧
      f.bwipp = bwipp ∧
      f.dataOptionsEncoder =
        formatDataOptionsEncoder data (options.getD []) barcodeType ∧
      inv.input =
        bboxPre ++ bwipp ++ bboxMid
          ++ pyIndent "  ".toList f.dataOptionsEncoder ++ bboxPost ∧
      (pyIndent "  ".toList f.dataOptionsEncoder).filter contentKeep =
        f.dataOptionsEncoder.filter contentKeep := by
  unfold generateBarcode
  rw [if_neg (by rw [hbt]; decide)]
  rw [if_neg (by omega)]
  simp only []
  rw [hr]
  refine ⟨_, _, rfl, rfl, rfl, rfl, rfl, ?_⟩
  exact filter_pyIndent contentKeep _ _ (by decide)

/-- Witness for C9 (amended) at a concrete request. -/
theorem docs_share_block_wit :
    ∃ f inv,
      (generateBarcode "BWIPP".toList "code128".toList
          (.str "HELLO123".toList) (some []) 2 0
          ("%%BoundingBox: 10 20 110 70\n"
            ++ "%%HiResBoundingBox: 10.0 20.0 110.0 70.0\n").toList).outcome
          = .ok f ∧
      (generateBarcode "BWIPP".toList "code128".toList
          (.str "HELLO123".toList) (some []) 2 0
          ("%%BoundingBox: 10 20 110 70\n"
            ++ "%%HiResBoundingBox: 10.0 20.0 110.0 70.0\n").toList).probe
          = some inv ∧
      f.bwipp = "BWIPP".toList ∧
      f.dataOptionsEncoder =
        formatDataOptionsEncoder (.str "HELLO123".toList) []
          "code128".toList ∧
      inv.input =
        bboxPre ++ "BWIPP".toList ++ bboxMid
          ++ pyIndent "  ".toList f.dataOptionsEncoder ++ bboxPost ∧
      (pyIndent "  ".toList f.dataOptionsEncoder).filter contentKeep =
        f.dataOptionsEncoder.filter contentKeep :=
  docs_share_block "BWIPP".toList "code128".toList
    (.str "HELLO123".toList) (some []) 2 0
    ("%%BoundingBox: 10 20 110 70\n"
      ++ "%%HiResBoundingBox: 10.0 20.0 110.0 70.0\n").toList
    10 20 110 70 (by decide) (by decide) (by decide)

end Treepoem
